import Mathlib

/-!
Shallow embedding of `src/app.py` (KFR Metadata Extractor): the PDF text
extractor (`KFRMetadataExtractor.extract_text_from_pdf`), the prompt builder
(`create_extraction_prompt`), the JSON-reply parsing stage of
`extract_metadata`, and `validate_metadata`.

Python strings are modelled as Lean `String` (both count Unicode code
points); Python `dict` values coming from `json.loads` are modelled by the
`Json` inductive below, with Python `dict` semantics (insertion order,
duplicate keys overwrite).
-/

/-- JSON values as produced by the Python `json.loads`.  Numbers keep their
source lexeme (the grammar is checked; numeric value semantics are not needed
by any code path modelled here).  Objects are insertion-ordered key/value
lists with distinct keys, mirroring Python `dict`. -/
inductive Json where
  | null : Json
  | bool (b : Bool) : Json
  | num (lexeme : String) : Json
  | str (s : String) : Json
  | arr (items : List Json) : Json
  | obj (fields : List (String × Json)) : Json
  deriving Repr

mutual

/-- Structural equality of JSON values, modelling Python `==` on the values
`json.loads` returns.  (Python additionally identifies `1 == 1.0 == True`;
no modelled code path compares numbers of different lexical form.) -/
def Json.beq : Json → Json → Bool
  | .null, .null => true
  | .bool a, .bool b => a == b
  | .num a, .num b => a == b
  | .str a, .str b => a == b
  | .arr as, .arr bs => jsonListBeq as bs
  | .obj as, .obj bs => jsonKVBeq as bs
  | _, _ => false

/-- Elementwise `Json.beq` on lists. -/
def jsonListBeq : List Json → List Json → Bool
  | [], [] => true
  | a :: as, b :: bs => Json.beq a b && jsonListBeq as bs
  | _, _ => false

/-- Elementwise `Json.beq` on key/value lists. -/
def jsonKVBeq : List (String × Json) → List (String × Json) → Bool
  | [], [] => true
  | (k1, v1) :: as, (k2, v2) :: bs => k1 == k2 && Json.beq v1 v2 && jsonKVBeq as bs
  | _, _ => false

end

/-- The ASCII whitespace characters of the Python `str.strip()` (and of the
regex class `\s` on the ASCII inputs considered here). -/
def isPySpace (c : Char) : Bool :=
  c = ' ' || c = '\t' || c = '\n' || c = '\r' || c = '\x0b' || c = '\x0c'

/-- Python `str.strip()`: remove leading and trailing whitespace. -/
def pyStrip (s : String) : String :=
  String.mk (((s.data.dropWhile isPySpace).reverse.dropWhile isPySpace).reverse)

/-- Python `s[:n]` on strings: the first `n` code points. -/
def pySlice (s : String) (n : Nat) : String :=
  String.mk (s.data.take n)

/-!
## Text Extractor (`KFRMetadataExtractor.extract_text_from_pdf`)

The two extraction engines (PyMuPDF / `fitz` and `pdfplumber`) are external
libraries; a `PdfDoc` records what each engine yields on the uploaded bytes.
`none` for an engine result models the engine raising an exception at any
point of its pass (corrupt/encrypted PDF, engine limitation); the `except`
block of the source catches it.
-/

/-- One page as seen by the `pdfplumber` fallback pass: `page.extract_text()`
(which may return `None`) and `page.extract_tables()` (each table a list of
rows, each row a list of cells, each cell a string or `None`). -/
structure PlumberPage where
  text : Option String
  tables : List (List (List (Option String)))
  deriving Repr

/-- Outcomes of the two extraction engines on one uploaded PDF.  `none`
models the respective pass raising. -/
structure PdfDoc where
  fitzResult : Option (List String)
  plumberResult : Option (List PlumberPage)
  deriving Repr

/-- The page marker of pass 1: `f"\n--- Page {page_num + 1} ---\n"`. -/
def pageMarker (n : Nat) : String :=
  "\n--- Page " ++ toString n ++ " ---\n"

/-- Pass 1 (PyMuPDF): accumulate marker plus `page.get_text()` per page. -/
def fastPassText (pages : List String) : String :=
  String.join (pages.enum.map fun p => pageMarker (p.1 + 1) ++ p.2)

/-- One serialized cell: `str(cell) if cell else ""` — a `None` or falsy
(empty-string) cell renders as the empty string. -/
def cellStr (c : Option String) : String :=
  match c with
  | none => ""
  | some s => s

/-- One serialized table row: cells joined by `" | "` plus a newline.  The
source guards `if row:`, so an empty row list produces nothing at all. -/
def rowLine (row : List (Option String)) : String :=
  if row.isEmpty then "" else String.intercalate " | " (row.map cellStr) ++ "\n"

/-- Serialization of the rows of one table (the body under the table header). -/
def tableRows (table : List (List (Option String))) : String :=
  String.join (table.map rowLine)

/-- One table block of the fallback pass:
`f"\n[Table {j+1} on Page {i+1}]\n"` plus the serialized rows. -/
def tableBlock (pageIdx tblIdx : Nat) (table : List (List (Option String))) : String :=
  "\n[Table " ++ toString (tblIdx + 1) ++ " on Page " ++ toString (pageIdx + 1) ++ "]\n"
    ++ tableRows table

/-- One page of the fallback pass: marker, page text when truthy, then the
table blocks. -/
def plumberPageText (i : Nat) (pg : PlumberPage) : String :=
  "\n--- Page " ++ toString (i + 1) ++ " (pdfplumber) ---\n"
    ++ (match pg.text with | none => "" | some s => s)
    ++ String.join (pg.tables.enum.map fun t => tableBlock i t.1 t.2)

/-- Pass 2 (pdfplumber): text plus detected tables for every page. -/
def fallbackText (pages : List PlumberPage) : String :=
  String.join (pages.enum.map fun p => plumberPageText p.1 p.2)

/-- The branch condition of the source, line 49:
`if len(text_content.strip()) < 1000`.  Note the threshold is applied to the
whitespace-stripped accumulated text, not to the accumulated text itself. -/
def fallbackCondition (pages : List String) : Bool :=
  (pyStrip (fastPassText pages)).length < 1000

/-- `KFRMetadataExtractor.extract_text_from_pdf`: pass 1, the conditional
pass 2 appended to the pass-1 text, and `return ""` from the `except` block
when either engine raises. -/
def extract_text_from_pdf (doc : PdfDoc) : String :=
  match doc.fitzResult with
  | none => ""
  | some pages =>
    let fast := fastPassText pages
    if fallbackCondition pages then
      match doc.plumberResult with
      | none => ""
      | some ps => fast ++ fallbackText ps
    else fast

/-!
## JSON parsing (Python `json.loads`)

`extract_metadata` feeds the reply text to `json.loads` and `validate_metadata`
consumes the resulting value.  `json.loads` is modelled by an executable
recursive-descent parser for the Python JSON dialect: optional whitespace
(space/tab/newline/return) around tokens, strict strings (raw control
characters rejected, the standard escapes and `\uXXXX` with surrogate-pair
combination), the `json` number grammar with the nonstandard constants `NaN`,
`Infinity` and `-Infinity` accepted by default, objects with Python-`dict`
duplicate-key overwriting, and a trailing-data check.  One modelling limit:
a Lean `Char` cannot hold a lone surrogate, so an unpaired `\uD800-\uDFFF`
escape (which Python keeps as a lone surrogate) becomes U+FFFD; no modelled
input contains one.  The parser is fuelled; the fuel budget
`4 * length + 16` strictly dominates the recursion depth on every input, so
running out of fuel coincides with no input at all left to consume. -/

/-- JSON whitespace as skipped by the Python `json` scanner. -/
def isJsonWs (c : Char) : Bool := c = ' ' || c = '\t' || c = '\n' || c = '\r'

/-- Skip JSON whitespace. -/
def skipJsonWs (l : List Char) : List Char := l.dropWhile isJsonWs

/-- Value of one hexadecimal digit. -/
def hexDigitVal (c : Char) : Option Nat :=
  if 48 ≤ c.toNat ∧ c.toNat ≤ 57 then some (c.toNat - 48)
  else if 97 ≤ c.toNat ∧ c.toNat ≤ 102 then some (c.toNat - 87)
  else if 65 ≤ c.toNat ∧ c.toNat ≤ 70 then some (c.toNat - 55)
  else none

/-- Four hexadecimal digits, as in a `\uXXXX` escape. -/
def hex4 : List Char → Option (Nat × List Char)
  | a :: b :: c :: d :: rest =>
    match hexDigitVal a, hexDigitVal b, hexDigitVal c, hexDigitVal d with
    | some va, some vb, some vc, some vd => some (va * 4096 + vb * 256 + vc * 16 + vd, rest)
    | _, _, _, _ => none
  | _ => none

/-- The single-character JSON string escapes. -/
def escChar (c : Char) : Option Char :=
  match c with
  | '"' => some '"'
  | '\\' => some '\\'
  | '/' => some '/'
  | 'b' => some (Char.ofNat 8)
  | 'f' => some (Char.ofNat 12)
  | 'n' => some '\n'
  | 'r' => some '\r'
  | 't' => some '\t'
  | _ => none

/-- Body of a JSON string, after the opening quote: content and remainder
past the closing quote. -/
def parseStrBody : Nat → List Char → Option (List Char × List Char)
  | 0, _ => none
  | _, [] => none
  | fuel + 1, c :: rest =>
    if c = '"' then some ([], rest)
    else if c = '\\' then
      match rest with
      | [] => none
      | e :: r2 =>
        if e = 'u' then
          match hex4 r2 with
          | none => none
          | some (n, r3) =>
            if 0xD800 ≤ n ∧ n ≤ 0xDBFF then
              match r3 with
              | '\\' :: 'u' :: r4 =>
                match hex4 r4 with
                | some (m, r5) =>
                  if 0xDC00 ≤ m ∧ m ≤ 0xDFFF then
                    (parseStrBody fuel r5).map fun p =>
                      (Char.ofNat (0x10000 + (n - 0xD800) * 0x400 + (m - 0xDC00)) :: p.1, p.2)
                  else (parseStrBody fuel r3).map fun p => (Char.ofNat 0xFFFD :: p.1, p.2)
                | none => (parseStrBody fuel r3).map fun p => (Char.ofNat 0xFFFD :: p.1, p.2)
              | _ => (parseStrBody fuel r3).map fun p => (Char.ofNat 0xFFFD :: p.1, p.2)
            else if 0xDC00 ≤ n ∧ n ≤ 0xDFFF then
              (parseStrBody fuel r3).map fun p => (Char.ofNat 0xFFFD :: p.1, p.2)
            else (parseStrBody fuel r3).map fun p => (Char.ofNat n :: p.1, p.2)
        else
          match escChar e with
          | some ch => (parseStrBody fuel r2).map fun p => (ch :: p.1, p.2)
          | none => none
    else if c.toNat < 0x20 then none
    else (parseStrBody fuel rest).map fun p => (c :: p.1, p.2)

/-- The JSON number grammar `-?(0|[1-9]\d*)(\.\d+)?([eE][+-]?\d+)?`, matched
at the head of the input; the matched lexeme and the remainder. -/
def parseNumber (l : List Char) : Option (List Char × List Char) :=
  let signed := match l with
    | '-' :: r => (['-'], r)
    | _ => (([] : List Char), l)
  match signed.2 with
  | c :: r =>
    if c = '0' ∨ c.isDigit then
      let intPart := if c = '0' then ([c], r)
        else (c :: r.takeWhile Char.isDigit, r.dropWhile Char.isDigit)
      let afterFrac :=
        match intPart.2 with
        | '.' :: r' =>
          let ds := r'.takeWhile Char.isDigit
          if ds.isEmpty then (intPart.1, intPart.2)
          else (intPart.1 ++ '.' :: ds, r'.dropWhile Char.isDigit)
        | _ => (intPart.1, intPart.2)
      let afterExp :=
        match afterFrac.2 with
        | e :: r' =>
          if e = 'e' ∨ e = 'E' then
            let se := match r' with
              | s :: r2' => if s = '+' ∨ s = '-' then ([s], r2') else (([] : List Char), r')
              | [] => (([] : List Char), r')
            let ds := se.2.takeWhile Char.isDigit
            if ds.isEmpty then (afterFrac.1, afterFrac.2)
            else (afterFrac.1 ++ e :: se.1 ++ ds, se.2.dropWhile Char.isDigit)
          else (afterFrac.1, afterFrac.2)
        | [] => (afterFrac.1, afterFrac.2)
      some (signed.1 ++ afterExp.1, afterExp.2)
    else none
  | [] => none

/-- The `{` character (written by code point for lexical hygiene). -/
def lBraceChar : Char := Char.ofNat 123

/-- The `}` character (written by code point for lexical hygiene). -/
def rBraceChar : Char := Char.ofNat 125

/-- Strip a literal prefix, returning the remainder on success. -/
def stripPrefixL (pat l : List Char) : Option (List Char) :=
  match pat, l with
  | [], rest => some rest
  | p :: ps, x :: xs => if p = x then stripPrefixL ps xs else none
  | _ :: _, [] => none

/-- Insert a key/value pair with Python `dict` semantics: an existing key
keeps its position and gets the new value, a new key is appended. -/
def objInsert (acc : List (String × Json)) (k : String) (v : Json) : List (String × Json) :=
  if acc.any (fun p => p.1 == k) then
    acc.map fun p => if p.1 == k then (k, v) else p
  else acc ++ [(k, v)]

mutual

/-- One JSON value at the head of the input (leading whitespace allowed),
in the match order of the Python scanner: string, object, array, `null`, `true`,
`false`, number, then the nonstandard constants. -/
def parseVal : Nat → List Char → Option (Json × List Char)
  | 0, _ => none
  | fuel + 1, l =>
    let l' := skipJsonWs l
    match l' with
    | [] => none
    | c :: rest =>
      if c = '"' then
        (parseStrBody (rest.length + 1) rest).map fun p => (Json.str (String.mk p.1), p.2)
      else if c = lBraceChar then parseObjBody fuel rest
      else if c = '[' then parseArrBody fuel rest
      else
        match stripPrefixL "null".data l' with
        | some r => some (Json.null, r)
        | none =>
        match stripPrefixL "true".data l' with
        | some r => some (Json.bool true, r)
        | none =>
        match stripPrefixL "false".data l' with
        | some r => some (Json.bool false, r)
        | none =>
        match parseNumber l' with
        | some (lex, r) => some (Json.num (String.mk lex), r)
        | none =>
        match stripPrefixL "NaN".data l' with
        | some r => some (Json.num "NaN", r)
        | none =>
        match stripPrefixL "Infinity".data l' with
        | some r => some (Json.num "Infinity", r)
        | none =>
        match stripPrefixL "-Infinity".data l' with
        | some r => some (Json.num "-Infinity", r)
        | none => none

/-- An object body, after the opening brace. -/
def parseObjBody : Nat → List Char → Option (Json × List Char)
  | 0, _ => none
  | fuel + 1, l =>
    match skipJsonWs l with
    | c :: rest =>
      if c = rBraceChar then some (Json.obj [], rest)
      else parseMembers fuel (c :: rest) []
    | [] => parseMembers fuel [] []

/-- The members of a non-empty object; a key string is expected next (so a
trailing comma is rejected, as in Python). -/
def parseMembers : Nat → List Char → List (String × Json) → Option (Json × List Char)
  | 0, _, _ => none
  | fuel + 1, l, acc =>
    match l with
    | '"' :: rest =>
      match parseStrBody (rest.length + 1) rest with
      | none => none
      | some (k, r1) =>
        match skipJsonWs r1 with
        | ':' :: r2 =>
          match parseVal fuel r2 with
          | none => none
          | some (v, r3) =>
            match skipJsonWs r3 with
            | c2 :: r4 =>
              if c2 = ',' then parseMembers fuel (skipJsonWs r4) (objInsert acc (String.mk k) v)
              else if c2 = rBraceChar then some (Json.obj (objInsert acc (String.mk k) v), r4)
              else none
            | [] => none
        | _ => none
    | _ => none

/-- An array body, after the opening bracket. -/
def parseArrBody : Nat → List Char → Option (Json × List Char)
  | 0, _ => none
  | fuel + 1, l =>
    match skipJsonWs l with
    | ']' :: rest => some (Json.arr [], rest)
    | l' => parseItems fuel l' []

/-- The items of a non-empty array; a value is expected next. -/
def parseItems : Nat → List Char → List Json → Option (Json × List Char)
  | 0, _, _ => none
  | fuel + 1, l, acc =>
    match parseVal fuel l with
    | none => none
    | some (v, r1) =>
      match skipJsonWs r1 with
      | ',' :: r2 => parseItems fuel r2 (acc ++ [v])
      | ']' :: r2 => some (Json.arr (acc ++ [v]), r2)
      | _ => none

end

/-- Python `json.loads`: one value, then only whitespace may remain. -/
def jsonParse (s : String) : Option Json :=
  match parseVal (4 * s.data.length + 16) s.data with
  | none => none
  | some (v, rest) => if (skipJsonWs rest).isEmpty then some v else none

/-!
## Metadata Requester reply handling (`extract_metadata`, lines 176–194)

`extract_metadata` builds the prompts, performs the network call, and then
processes the reply text:
`re.search(r'```json\s*(.*?)\s*```', response_text, re.DOTALL)`; the fenced
group if the pattern matches, otherwise the whole reply, is handed to
`json.loads`, and `json.JSONDecodeError` is caught and surfaced as `None`.
The reply-processing stage is deterministic in the reply text and is
embedded below; the network call itself (and its `except` branch, which also
yields `None`) stays outside the model. -/

/-- Does `\s*` followed by the literal ` ``` ` match at the head?  (The
regex runs on ASCII replies; `\s` is the ASCII whitespace class.) -/
def wsThenTriple (l : List Char) : Bool :=
  "```".data.isPrefixOf (l.dropWhile isPySpace)

/-- The lazy group `(.*?)` of the fence pattern: the shortest prefix that can
be followed by `\s*` and the closing fence.  `none` when no closing fence
follows. -/
def closeScan : List Char → Option (List Char)
  | [] => none
  | c :: rest =>
    if wsThenTriple (c :: rest) then some []
    else
      match closeScan rest with
      | none => none
      | some g => some (c :: g)

/-- `re.search(r'```json\s*(.*?)\s*```', text, re.DOTALL)`: the leftmost
occurrence of ` ```json `, its following maximal whitespace run skipped by
the greedy `\s*`, then the lazy group up to the closing fence.  Returns the
matched group. -/
def searchFence : List Char → Option (List Char)
  | [] => none
  | c :: rest =>
    if "```json".data.isPrefixOf (c :: rest) then
      match closeScan (((c :: rest).drop 7).dropWhile isPySpace) with
      | some g => some g
      | none => searchFence rest
    else searchFence rest

/-- Lines 179–184: the fenced group when the pattern matches, else the whole
reply text. -/
def extractJsonCandidate (response : String) : String :=
  match searchFence response.data with
  | some g => String.mk g
  | none => response

/-- The reply-processing stage of `extract_metadata`: candidate selection
followed by `json.loads`, with a parse failure caught and returned as
`None`. -/
def extract_metadata_parse (response : String) : Option Json :=
  jsonParse (extractJsonCandidate response)

/-!
## Prompt Builder (`KFRMetadataExtractor.create_extraction_prompt`)

Literal braces of the source strings are written `\x7b` / `\x7d`.
-/

/-- The fixed `system_prompt` string of `create_extraction_prompt`. -/
def system_prompt : String :=
  "\nAnda adalah AI khusus untuk ekstraksi metadata dokumen Kajian Fiskal Regional (KFR) DJPb.\n\nSTRUKTUR STANDAR KFR:\n- Cover: \"KFR [Wilayah] Triwulan [I/II/III/IV] Tahun [YYYY]\"\n- Kata Pengantar: biasanya \"Seulas Pinang\" (Riau) atau judul khas daerah\n- Ringkasan Eksekutif: berisi poin-poin kunci\n- Dashboard: visualisasi data utama\n- Bab I: Analisis Ekonomi Regional (makro ekonomi + kesejahteraan)\n- Bab II: Analisis Fiskal Regional (APBN + APBD + box analysis)\n- Bab III: Analisis Tematik (topik spesifik berbeda tiap wilayah)\n- Bab IV: Kesimpulan dan Rekomendasi\n\nPANDUAN EKSTRAKSI:\n\nMETADATA_UMUM:\n- judul_dokumen: Dari cover page, format: \"KFR DJPb [Wilayah] Triwulan [X] Tahun [YYYY]\"\n- periode: \"Triwulan [I/II/III/IV] [YYYY]\"\n- wilayah: \"Provinsi [Nama]\" atau \"DKI Jakarta\"\n- penyusun: Cari di halaman \"The Team\" atau kata pengantar, biasanya [\"Tim RCE Kanwil [Wilayah]\", \"Seksi PPA\"]\n- reviewer: Dari kata pengantar, biasanya \"Kepala Kanwil DJPb Provinsi [Wilayah]\" \n- kategori: Selalu \"KFR\"\n- tema: Dari judul Bab III Analisis Tematik atau subtitle di cover\n- indikator_kunci: Dari Ringkasan Eksekutif, ambil 3-5 poin utama dengan angka\n- tags: Kata kunci dari tema analisis dan isu utama yang dibahas\n- tautan_file_pdf: null (akan diisi manual)\n- tingkat_kerahasiaan: \"Publik\" (default untuk KFR)\n\nMETADATA_ANALISIS_KHUSUS:\n- judul_dokumen: Sama dengan metadata_umum\n- periode: Sama dengan metadata_umum\n- tipe_analisis: \"Fiskal & Ekonomi Regional\" (standar)\n- coverage_geografis: Dari teks, biasanya [\"[X] Kabupaten/Kota di Provinsi [Nama]\"]\n- metodologi_khusus: Cari box analysis atau sub-bab metodologi di Bab II\n- isu_khusus: Dari Bab III dan kesimpulan, fokus pada tema kebijakan\n- topik_tematik: Dari judul dan sub-judul Bab III\n- sumber_data: Cari disclaimer tabel \"Sumber: [nama]\", biasanya [\"SPAN\", \"SAKTI\", \"APBD Kemendagri\", \"BPS\", \"BI\", \"ALCO\"]\n\nMETADATA_TABEL_STRATEGIS:\n- Prioritas tabel: APBN/APBD, pertumbuhan ekonomi, indikator fiskal\n- Format ID: \"Tabel_[Bab]_[nomor]\" atau \"Grafik_[Bab]_[nomor]\"\n- nama: Ambil dari judul tabel yang paling strategis\n- deskripsi: Jelaskan isi tabel secara singkat\n- wilayah: Sama dengan metadata umum\n- periode: Sama dengan metadata umum\n- kategori_tabel: Klasifikasi tabel (misal: \"Realisasi APBN\", \"Indikator Ekonomi\")\n- tautan_sheet: null (akan diisi manual)\n- kolom_tabel: Object dengan key-value kolom utama dan deskripsinya\n- tag_analisis: Array tag relevan untuk tabel\n\nCRITICAL INSTRUCTIONS:\n- Pastikan konsistensi nama wilayah dan periode di semua metadata\n- Cross-check angka indikator dengan sumber tabel\n- Jika informasi tidak tersedia, gunakan null daripada menebak\n- Output harus berupa JSON valid\n- Fokus pada akurasi, bukan kelengkapan\n\nOUTPUT FORMAT:\n```json\n\x7b\n  \"metadata_umum\": \x7b...\x7d,\n  \"metadata_analisis_khusus\": \x7b...\x7d,\n  \"metadata_tabel_strategis\": [\x7b...\x7d, \x7b...\x7d]\n\x7d\n```\n"

/-- A hint entry of the `user_inputs` dict: the key may be absent from the
dict, present with value `None`, or present with a string value. -/
inductive Hint where
  | absent : Hint
  | pynone : Hint
  | str (s : String) : Hint
  deriving DecidableEq, Repr

/-- The `user_inputs` dict with its three hint keys `wilayah`, `periode`,
`catatan`. -/
structure UserInputs where
  wilayah : Hint
  periode : Hint
  catatan : Hint
  deriving DecidableEq, Repr

/-- `f"{user_inputs.get(key, default)}"`: `dict.get` yields the default only
when the key is absent; a key present with value `None` is rendered by the
f-string as the literal `"None"`. -/
def renderHint : Hint → String → String
  | .absent, dflt => dflt
  | .pynone, _ => "None"
  | .str s, _ => s

/-- Literal segment of the `user_prompt` f-string before `text[:30000]`. -/
def userPromptA : String := "\nDOKUMEN KFR UNTUK DIANALISIS:\n\n"

/-- Literal segment between `text[:30000]` and the `wilayah` hint. -/
def userPromptB : String :=
  "  # Limit untuk menghindari token limit\n\nINFORMASI TAMBAHAN DARI USER:\n- Wilayah: "

/-- Literal segment between the `wilayah` and `periode` hints. -/
def userPromptC : String := "\n- Periode: "

/-- Literal segment between the `periode` and `catatan` hints. -/
def userPromptD : String := "\n- Catatan: "

/-- Literal closing segment of the `user_prompt` f-string. -/
def userPromptE : String :=
  "\n\nTUGAS:\nEkstrak metadata sesuai format yang diminta. Prioritaskan akurasi dan konsistensi.\nJika ada informasi dari user yang bertentangan dengan dokumen, gunakan informasi dari dokumen.\n\nOUTPUT JSON:\n"

/-- The `user_prompt` f-string of `create_extraction_prompt` (lines
142–157). -/
def create_user_prompt (text : String) (u : UserInputs) : String :=
  userPromptA ++ pySlice text 30000 ++ userPromptB
    ++ renderHint u.wilayah "Tidak diisi" ++ userPromptC
    ++ renderHint u.periode "Tidak diisi" ++ userPromptD
    ++ renderHint u.catatan "Tidak ada" ++ userPromptE

/-- `KFRMetadataExtractor.create_extraction_prompt`: the pair of system and
user instruction. -/
def create_extraction_prompt (text : String) (u : UserInputs) : String × String :=
  (system_prompt, create_user_prompt text u)

/-- Is `pat` a contiguous substring of `l`? -/
def hasSubstrL (pat : List Char) : List Char → Bool
  | [] => pat.isEmpty
  | c :: rest => pat.isPrefixOf (c :: rest) || hasSubstrL pat rest

/-- Is `pat` a contiguous substring of `s`? -/
def containsSubstr (s pat : String) : Bool := hasSubstrL pat.data s.data

/-!
## Validator (`validate_metadata`)

The input is the value `extract_metadata` hands over: `None` or the Python
dict parsed from the reply, modelled as `Option (List (String × Json))`.
(Python would raise `AttributeError` on `.get` if `json.loads` produced a
truthy non-dict; that path is outside the dict-shaped inputs modelled here,
as are `.get` calls on truthy non-dict section values, where `Json.get?`
below returns `None` instead.)
-/

/-- Python truthiness of a JSON number, on its lexeme: zero mantissa digits
(regardless of sign and exponent) make it falsy; `NaN` and the infinities
are truthy. -/
def numTruthy (lex : String) : Bool :=
  let ds := (lex.data.takeWhile fun c => c != 'e' && c != 'E').filter Char.isDigit
  ds.isEmpty || ds.any (· != '0')

/-- Python truthiness of a JSON value: `None`, `False`, zero, and empty
strings/lists/dicts are falsy. -/
def jtruthy : Json → Bool
  | .null => false
  | .bool b => b
  | .num lex => numTruthy lex
  | .str s => !s.isEmpty
  | .arr l => !l.isEmpty
  | .obj l => !l.isEmpty

/-- Python truthiness of a `dict.get` result (`None` when absent). -/
def jOptTruthy : Option Json → Bool
  | none => false
  | some j => jtruthy j

/-- Python `dict.get(k)` on a key/value list (`dict`-shaped: keys unique). -/
def dictGet (d : List (String × Json)) (k : String) : Option Json :=
  (d.find? fun p => p.1 == k).map Prod.snd

/-- `.get(k)` on a JSON value that is used as a dict. -/
def Json.get? : Json → String → Option Json
  | .obj l, k => dictGet l k
  | _, _ => none

/-- Python `==` on two `dict.get` results (`None` compares equal only to
`None`). -/
def optJsonBeq : Option Json → Option Json → Bool
  | none, none => true
  | some a, some b => Json.beq a b
  | _, _ => false

/-- `required_umum = ["judul_dokumen", "periode", "wilayah", "kategori"]`. -/
def required_umum : List String := ["judul_dokumen", "periode", "wilayah", "kategori"]

/-- `f"Missing required field in metadata_umum: {field}"`. -/
def missingFieldMsg (f : String) : String :=
  "Missing required field in metadata_umum: " ++ f

/-- The period-mismatch issue string. -/
def periodeMsg : String :=
  "Periode tidak konsisten antara metadata_umum dan metadata_analisis_khusus"

/-- The title-mismatch issue string. -/
def judulMsg : String :=
  "Judul dokumen tidak konsisten antara metadata_umum dan metadata_analisis_khusus"

/-- The `metadata_umum` section: `metadata.get("metadata_umum", {})`. -/
def umumOf (m : List (String × Json)) : Json :=
  (dictGet m "metadata_umum").getD (Json.obj [])

/-- The required-field issues, in `required_umum` order. -/
def missingIssues (m : List (String × Json)) : List String :=
  required_umum.filterMap fun f =>
    if jOptTruthy ((umumOf m).get? f) then none else some (missingFieldMsg f)

/-- The cross-section consistency issues: only when
`metadata.get("metadata_analisis_khusus")` is truthy. -/
def consistencyIssues (m : List (String × Json)) : List String :=
  match dictGet m "metadata_analisis_khusus" with
  | none => []
  | some a =>
    if jtruthy a then
      (if optJsonBeq ((umumOf m).get? "periode") (a.get? "periode") then []
        else [periodeMsg])
        ++ (if optJsonBeq ((umumOf m).get? "judul_dokumen") (a.get? "judul_dokumen") then []
          else [judulMsg])
    else []

/-- `validate_metadata` (lines 199–222). -/
def validate_metadata (metadata : Option (List (String × Json))) : List String :=
  match metadata with
  | none => ["Metadata is empty or invalid"]
  | some m =>
    if m.isEmpty then ["Metadata is empty or invalid"]
    else missingIssues m ++ consistencyIssues m

/-!
## Concrete inputs used by the claim theorems
-/

/-- One fast-pass page of 984 characters: with the 16-character page marker
the accumulated pass-1 text has exactly 1000 characters, but only 999 after
`str.strip()` removes the leading marker newline. -/
def c1Pages : List String := [String.mk (List.replicate 984 'a')]

/-- A successful fallback pass with one plain-text page. -/
def c1Plumber : List PlumberPage := [{ text := some "XYZ", tables := [] }]

/-- A document whose fast pass yields exactly 1000 characters and whose
fallback pass succeeds. -/
def c1Doc : PdfDoc := { fitzResult := some c1Pages, plumberResult := some c1Plumber }

/-- The specialized-analysis section of the C4 validator input. -/
def c4analisis : Json := Json.obj [("periode", Json.str "Q2"), ("judul_dokumen", Json.str "X")]

/-- The C4 validator input: all four required general fields present, the
specialized section with a differing period and an equal title. -/
def c4meta : List (String × Json) :=
  [("metadata_umum", Json.obj [("judul_dokumen", Json.str "X"), ("periode", Json.str "Q1"),
      ("wilayah", Json.str "R"), ("kategori", Json.str "KFR")]),
    ("metadata_analisis_khusus", c4analisis)]

/-- A non-empty validator input without a `metadata_umum` key but with a
truthy specialized-analysis section. -/
def c9cex : List (String × Json) :=
  [("metadata_analisis_khusus", Json.obj [("periode", Json.str "Q")])]

/-- The hints dict of the C5 test input read literally: the `wilayah` and
`catatan` keys are present with value `None`. -/
def c5hintsNone : UserInputs :=
  { wilayah := Hint.pynone, periode := Hint.str "Q1 2025", catatan := Hint.pynone }

/-- The C5 hints dict with the `wilayah` and `catatan` keys absent. -/
def c5hintsAbsent : UserInputs :=
  { wilayah := Hint.absent, periode := Hint.str "Q1 2025", catatan := Hint.absent }

/-!
## Helper lemmas
-/

/-- Rebuilding a string from its character data is the identity. -/
theorem stringMkData (s : String) : String.mk s.data = s := by
  cases s
  rfl

/-- A list is a `isPrefixOf` of itself followed by anything. -/
theorem isPrefixOf_append_self (pat rest : List Char) :
    pat.isPrefixOf (pat ++ rest) = true := by
  induction pat with
  | nil => simp
  | cons p ps ih => simp [List.isPrefixOf, ih]

/-- A pattern is a substring of itself followed by anything. -/
theorem hasSubstrL_self_append (pat rest : List Char) :
    hasSubstrL pat (pat ++ rest) = true := by
  cases pat with
  | nil =>
    cases rest with
    | nil => rfl
    | cons c r => simp [hasSubstrL, List.isPrefixOf]
  | cons p ps => simp [hasSubstrL, List.isPrefixOf, isPrefixOf_append_self]

/-- A substring of the right part is a substring of the whole. -/
theorem hasSubstrL_append_of_right (pat l1 l2 : List Char)
    (h : hasSubstrL pat l2 = true) : hasSubstrL pat (l1 ++ l2) = true := by
  induction l1 with
  | nil => simpa using h
  | cons c r ih => simp [hasSubstrL, ih]

/-- `validate_metadata` on a non-empty dict: the missing-field issues
followed by the consistency issues. -/
theorem validate_metadata_some (m : List (String × Json)) (h : m ≠ []) :
    validate_metadata (some m) = missingIssues m ++ consistencyIssues m := by
  simp [validate_metadata, h]

/-- Every element of `missingIssues` is a missing-field message for one of
the four required fields. -/
theorem mem_missingIssues (m : List (String × Json)) (x : String)
    (hx : x ∈ missingIssues m) : ∃ f ∈ required_umum, x = missingFieldMsg f := by
  obtain ⟨f, hf, hfx⟩ := List.mem_filterMap.mp hx
  refine ⟨f, hf, ?_⟩
  by_cases hc : jOptTruthy ((umumOf m).get? f) = true
  · simp [hc] at hfx
  · simp [hc] at hfx
    exact hfx.symm

/-!
## Claim theorems
-/

set_option maxRecDepth 40000 in
/-- C1 (counterexample): a PDF whose fast-pass extraction yields exactly
1000 characters (so at least 1000) for which the fallback pass nevertheless
runs and the returned text is not the fast-pass output — the source compares
the threshold against the whitespace-stripped text, which here has 999
characters. -/
theorem c1_threshold_counterexample :
    (fastPassText c1Pages).length = 1000 ∧
      extract_text_from_pdf c1Doc = fastPassText c1Pages ++ fallbackText c1Plumber ∧
      extract_text_from_pdf c1Doc ≠ fastPassText c1Pages := by
  refine ⟨by decide, by decide, by decide⟩

/-- C1 (amended): the fallback pass runs if and only if the
whitespace-stripped fast-pass text has fewer than 1000 characters; when the
stripped text has at least 1000 characters the returned text is exactly the
fast-pass output, and when it has fewer (and the fallback pass succeeds) the
returned text is the fast-pass text with the fallback-pass text appended. -/
theorem c1_threshold_stripped (doc : PdfDoc) (pages : List String)
    (hf : doc.fitzResult = some pages) :
    (1000 ≤ (pyStrip (fastPassText pages)).length →
      extract_text_from_pdf doc = fastPassText pages) ∧
      ((pyStrip (fastPassText pages)).length < 1000 →
        ∀ ps, doc.plumberResult = some ps →
          extract_text_from_pdf doc = fastPassText pages ++ fallbackText ps) := by
  constructor
  · intro h
    simp [extract_text_from_pdf, hf, fallbackCondition, Nat.not_lt.mpr h]
  · intro h ps hp
    simp [extract_text_from_pdf, hf, fallbackCondition, h, hp]

/-- C1 (witness for the amended theorem): a short fast pass triggers the
fallback and the outputs of both passes are concatenated. -/
theorem c1_threshold_stripped_witness :
    extract_text_from_pdf { fitzResult := some ["hi"], plumberResult := some c1Plumber }
      = fastPassText ["hi"] ++ fallbackText c1Plumber := by
  exact (c1_threshold_stripped _ ["hi"] rfl).2 (by decide) c1Plumber rfl

/-- C3: every modelled extraction failure is caught and surfaced as the
empty string — both when the first pass raises and when the fallback pass
raises after a short first pass. -/
theorem c3_failure_returns_empty (doc : PdfDoc) :
    (doc.fitzResult = none → extract_text_from_pdf doc = "") ∧
      ∀ pages, doc.fitzResult = some pages → fallbackCondition pages = true →
        doc.plumberResult = none → extract_text_from_pdf doc = "" := by
  constructor
  · intro h
    simp [extract_text_from_pdf, h]
  · intro pages hf hc hp
    simp [extract_text_from_pdf, hf, hc, hp]

/-- C3 (witness): a document on which the first extraction engine raises
yields the empty string. -/
theorem c3_failure_returns_empty_witness :
    extract_text_from_pdf { fitzResult := none, plumberResult := none } = "" :=
  (c3_failure_returns_empty _).1 rfl

/-- C10: if the fast pass succeeds, the stripped fast text is below the
threshold and the fallback pass raises, the extractor returns the empty
string, discarding the text the fast pass had accumulated. -/
theorem c10_fallback_raise_discards (doc : PdfDoc) (pages : List String)
    (h1 : doc.fitzResult = some pages)
    (h2 : (pyStrip (fastPassText pages)).length < 1000)
    (h3 : doc.plumberResult = none) :
    extract_text_from_pdf doc = "" ∧
      (fastPassText pages ≠ "" → extract_text_from_pdf doc ≠ fastPassText pages) := by
  have he : extract_text_from_pdf doc = "" := by
    simp [extract_text_from_pdf, h1, fallbackCondition, h2, h3]
  refine ⟨he, fun hne hcontr => hne ?_⟩
  rw [he] at hcontr
  exact hcontr.symm

/-- C10 (witness): a concrete document with a succeeding fast pass and a
raising fallback pass returns the empty string even though the fast pass
had produced non-empty text. -/
theorem c10_fallback_raise_discards_witness :
    extract_text_from_pdf { fitzResult := some ["hi"], plumberResult := none } = "" ∧
      fastPassText ["hi"] ≠ "" :=
  ⟨(c10_fallback_raise_discards _ ["hi"] rfl (by decide) rfl).1, by decide⟩

/-- C6: the rows `[["A","B"],[None,"C"]]` serialize as the line `A | B`
followed by the line ` | C`; the table block never contains the literal
`None`, and a `None` or empty cell renders as the empty string. -/
theorem c6_table_serialization :
    tableRows [[some "A", some "B"], [none, some "C"]] = "A | B\n | C\n" ∧
      containsSubstr (tableBlock 0 0 [[some "A", some "B"], [none, some "C"]]) "None" = false ∧
      cellStr none = "" ∧ cellStr (some "") = "" := by
  refine ⟨by decide, by decide, rfl, rfl⟩

/-- C8: a `None` input and the empty dict each yield exactly the single
issue `Metadata is empty or invalid`. -/
theorem c8_empty_metadata :
    validate_metadata none = ["Metadata is empty or invalid"] ∧
      validate_metadata (some []) = ["Metadata is empty or invalid"] :=
  ⟨rfl, rfl⟩

/-- C2: the fenced reply and the unfenced JSON body both parse to the
object with key `a` and value `1`; a non-JSON reply yields `none`; in
general, the fenced group is parsed when the pattern matches and the whole
reply text is parsed otherwise. -/
theorem c2_reply_parsing :
    extract_metadata_parse "prefix ```json\n\x7b\"a\":1\x7d\n``` suffix"
        = some (Json.obj [("a", Json.num "1")]) ∧
      extract_metadata_parse "\x7b\"a\":1\x7d" = some (Json.obj [("a", Json.num "1")]) ∧
      extract_metadata_parse "hello world" = none ∧
      (∀ r g, searchFence r.data = some g →
        extract_metadata_parse r = jsonParse (String.mk g)) ∧
      ∀ r, searchFence r.data = none → extract_metadata_parse r = jsonParse r := by
  refine ⟨rfl, rfl, rfl, ?_, ?_⟩
  · intro r g h
    simp [extract_metadata_parse, extractJsonCandidate, h]
  · intro r h
    simp [extract_metadata_parse, extractJsonCandidate, h]

/-- C2 (witness): a reply with no fenced block is parsed as a whole. -/
theorem c2_reply_parsing_witness : extract_metadata_parse "7" = jsonParse "7" :=
  c2_reply_parsing.2.2.2.2 "7" rfl

/-- `consistencyIssues` when the specialized section is present and
truthy: the two conditional mismatch issues. -/
theorem consistencyIssues_eq (m : List (String × Json)) (a : Json)
    (hmem : dictGet m "metadata_analisis_khusus" = some a) (ht : jtruthy a = true) :
    consistencyIssues m
      = (if optJsonBeq ((umumOf m).get? "periode") (Json.get? a "periode")
          then [] else [periodeMsg])
        ++ if optJsonBeq ((umumOf m).get? "judul_dokumen") (Json.get? a "judul_dokumen")
          then [] else [judulMsg] := by
  simp [consistencyIssues, hmem, ht]

/-- C4: on the test input the validator reports exactly the single
period-mismatch issue; in general, whenever the specialized-analysis
section is present and truthy, the period-mismatch issue appears exactly
once if the periods differ (else not at all), and likewise the
title-mismatch issue for the titles. -/
theorem c4_cross_section_consistency :
    validate_metadata (some c4meta) = [periodeMsg] ∧
      ∀ m a, dictGet m "metadata_analisis_khusus" = some a → jtruthy a = true →
        ((validate_metadata (some m)).count periodeMsg
            = if optJsonBeq ((umumOf m).get? "periode") (Json.get? a "periode")
              then 0 else 1) ∧
          ((validate_metadata (some m)).count judulMsg
            = if optJsonBeq ((umumOf m).get? "judul_dokumen") (Json.get? a "judul_dokumen")
              then 0 else 1) := by
  refine ⟨by decide, ?_⟩
  intro m a hmem htruthy
  have hne : m ≠ [] := by
    intro h
    rw [h] at hmem
    simp [dictGet] at hmem
  have hpm : periodeMsg ∉ missingIssues m := by
    intro hx
    obtain ⟨f, hf, hfx⟩ := mem_missingIssues m periodeMsg hx
    simp [required_umum] at hf
    rcases hf with h | h | h | h <;> subst h <;> exact absurd hfx (by decide)
  have hjm : judulMsg ∉ missingIssues m := by
    intro hx
    obtain ⟨f, hf, hfx⟩ := mem_missingIssues m judulMsg hx
    simp [required_umum] at hf
    rcases hf with h | h | h | h <;> subst h <;> exact absurd hfx (by decide)
  rw [validate_metadata_some m hne, consistencyIssues_eq m a hmem htruthy]
  constructor
  · rw [List.count_append, List.count_eq_zero.mpr hpm, Nat.zero_add]
    cases hb : optJsonBeq ((umumOf m).get? "periode") (Json.get? a "periode") <;>
      cases hb2 : optJsonBeq ((umumOf m).get? "judul_dokumen") (Json.get? a "judul_dokumen") <;>
        decide
  · rw [List.count_append, List.count_eq_zero.mpr hjm, Nat.zero_add]
    cases hb : optJsonBeq ((umumOf m).get? "periode") (Json.get? a "periode") <;>
      cases hb2 : optJsonBeq ((umumOf m).get? "judul_dokumen") (Json.get? a "judul_dokumen") <;>
        decide

/-- C4 (witness): on the C4 test input the period-mismatch issue appears
exactly once and the title-mismatch issue not at all. -/
theorem c4_cross_section_consistency_witness :
    (validate_metadata (some c4meta)).count periodeMsg = 1 ∧
      (validate_metadata (some c4meta)).count judulMsg = 0 := by
  have h := c4_cross_section_consistency.2 c4meta c4analisis rfl rfl
  constructor
  · rw [h.1]
    decide
  · rw [h.2]
    decide

/-- C9 (counterexample): a non-empty input without a `metadata_umum` key
whose issue list is not the four missing-field issues alone — a truthy
specialized-analysis section adds a fifth, period-mismatch issue. -/
theorem c9_missing_umum_counterexample :
    c9cex ≠ [] ∧ dictGet c9cex "metadata_umum" = none ∧
      validate_metadata (some c9cex)
        = [missingFieldMsg "judul_dokumen", missingFieldMsg "periode",
            missingFieldMsg "wilayah", missingFieldMsg "kategori", periodeMsg] ∧
      (validate_metadata (some c9cex)).length = 5 := by
  refine ⟨by simp [c9cex], rfl, by decide, by decide⟩

/-- C9 (amended): for every non-empty input without a `metadata_umum` key
the validator reports no empty-or-invalid issue but the four
missing-required-field issues in the fixed order `judul_dokumen`, `periode`,
`wilayah`, `kategori`, followed by the cross-section consistency issues;
when the specialized-analysis section is absent or falsy the result is
exactly the four missing-field issues. -/
theorem c9_missing_umum (m : List (String × Json)) (hne : m ≠ [])
    (hu : dictGet m "metadata_umum" = none) :
    validate_metadata (some m)
        = [missingFieldMsg "judul_dokumen", missingFieldMsg "periode",
            missingFieldMsg "wilayah", missingFieldMsg "kategori"] ++ consistencyIssues m ∧
      (jOptTruthy (dictGet m "metadata_analisis_khusus") = false →
        validate_metadata (some m)
          = [missingFieldMsg "judul_dokumen", missingFieldMsg "periode",
              missingFieldMsg "wilayah", missingFieldMsg "kategori"]) := by
  have humum : umumOf m = Json.obj [] := by simp [umumOf, hu]
  have hmiss : missingIssues m
      = [missingFieldMsg "judul_dokumen", missingFieldMsg "periode",
          missingFieldMsg "wilayah", missingFieldMsg "kategori"] := by
    simp [missingIssues, humum, required_umum, Json.get?, dictGet, jOptTruthy]
  have h1 : validate_metadata (some m)
      = [missingFieldMsg "judul_dokumen", missingFieldMsg "periode",
          missingFieldMsg "wilayah", missingFieldMsg "kategori"] ++ consistencyIssues m := by
    rw [validate_metadata_some m hne, hmiss]
  refine ⟨h1, fun hfalsy => ?_⟩
  have hcons : consistencyIssues m = [] := by
    cases hd : dictGet m "metadata_analisis_khusus" with
    | none => simp [consistencyIssues, hd]
    | some a =>
      rw [hd] at hfalsy
      simp [jOptTruthy] at hfalsy
      simp [consistencyIssues, hd, hfalsy]
  rw [h1, hcons, List.append_nil]

/-- C9 (witness for the amended theorem): a non-empty input without
`metadata_umum` and without a specialized section yields exactly the four
missing-field issues in order. -/
theorem c9_missing_umum_witness :
    validate_metadata (some [("x", Json.num "1")])
      = [missingFieldMsg "judul_dokumen", missingFieldMsg "periode",
          missingFieldMsg "wilayah", missingFieldMsg "kategori"] :=
  (c9_missing_umum [("x", Json.num "1")] (by simp) rfl).2 rfl

set_option maxRecDepth 8000 in
/-- C5 (counterexample): for the hints dict in which the `wilayah` and
`catatan` keys are present with value `None`, the user instruction contains
neither fallback marker (`Tidak diisi`, `Tidak ada`) — `dict.get` only falls
back on an absent key — and instead contains the literal rendering `None`. -/
theorem c5_hint_rendering_counterexample :
    containsSubstr (create_user_prompt "" c5hintsNone) "Tidak diisi" = false ∧
      containsSubstr (create_user_prompt "" c5hintsNone) "Tidak ada" = false ∧
      containsSubstr (create_user_prompt "" c5hintsNone) "None" = true := by
  refine ⟨by decide, by decide, by decide⟩

/-- C5 (amended): for a hints dict in which the `wilayah` and `catatan` keys
are absent and `periode` is `Q1 2025`, the user instruction contains the
fallback markers `Tidak diisi` (region) and `Tidak ada` (note) and the
literal value `Q1 2025`; a hint whose key is present with value `None` is
rendered as `None` instead (see the counterexample). -/
theorem c5_absent_hint_fallbacks (text : String) (u : UserInputs)
    (hw : u.wilayah = Hint.absent) (hp : u.periode = Hint.str "Q1 2025")
    (hc : u.catatan = Hint.absent) :
    containsSubstr (create_user_prompt text u) "Tidak diisi" = true ∧
      containsSubstr (create_user_prompt text u) "Q1 2025" = true ∧
      containsSubstr (create_user_prompt text u) "Tidak ada" = true := by
  refine ⟨?_, ?_, ?_⟩ <;>
    simp only [create_user_prompt, hw, hp, hc, renderHint, containsSubstr,
      String.data_append, List.append_assoc]
  · exact hasSubstrL_append_of_right _ _ _ (hasSubstrL_append_of_right _ _ _
      (hasSubstrL_append_of_right _ _ _ (hasSubstrL_self_append _ _)))
  · exact hasSubstrL_append_of_right _ _ _ (hasSubstrL_append_of_right _ _ _
      (hasSubstrL_append_of_right _ _ _ (hasSubstrL_append_of_right _ _ _
        (hasSubstrL_append_of_right _ _ _ (hasSubstrL_self_append _ _)))))
  · exact hasSubstrL_append_of_right _ _ _ (hasSubstrL_append_of_right _ _ _
      (hasSubstrL_append_of_right _ _ _ (hasSubstrL_append_of_right _ _ _
        (hasSubstrL_append_of_right _ _ _ (hasSubstrL_append_of_right _ _ _
          (hasSubstrL_append_of_right _ _ _ (hasSubstrL_self_append _ _)))))))

/-- C5 (witness for the amended theorem): with the `wilayah` and `catatan`
keys absent, the instruction contains both markers and the period value. -/
theorem c5_absent_hint_fallbacks_witness :
    containsSubstr (create_user_prompt "dokumen" c5hintsAbsent) "Tidak diisi" = true ∧
      containsSubstr (create_user_prompt "dokumen" c5hintsAbsent) "Q1 2025" = true ∧
      containsSubstr (create_user_prompt "dokumen" c5hintsAbsent) "Tidak ada" = true :=
  c5_absent_hint_fallbacks "dokumen" c5hintsAbsent rfl rfl rfl

/-- C7: the extraction prompt depends only on the first 30000 characters of
the extracted text — truncating the text to 30000 characters first yields
the identical prompt pair — and a text of at most 30000 characters is
embedded whole. -/
theorem c7_prompt_truncation :
    (∀ text u, create_extraction_prompt text u
        = create_extraction_prompt (pySlice text 30000) u) ∧
      ∀ text : String, text.data.length ≤ 30000 → pySlice text 30000 = text := by
  constructor
  · intro text u
    simp [create_extraction_prompt, create_user_prompt, pySlice, List.take_take]
  · intro text h
    simp [pySlice, List.take_of_length_le h, stringMkData]

/-- C7 (witness): a short text is embedded whole. -/
theorem c7_prompt_truncation_witness : pySlice "abc" 30000 = "abc" :=
  c7_prompt_truncation.2 "abc" (by decide)
